import Mathlib

/-!
Verification of the per-user OAuth token lifecycle and resumable-upload
state machine of the YouTube-upload bot (source: youtube_uploader.py).

The embedding models the `YouTubeUploader` class state as a record of
maps (token files, pending-state files, the in-memory upload_status
dict, and the temporary-file store), and each method as a pure state
transformer.  External collaborators (the OAuth token endpoint, the
token-refresh endpoint, and the resumable-upload server) are passed in
as oracles / outcome traces, faithful to the branch structure of the
source.
-/

namespace YTUploader

/-- A persisted OAuth credential, modelling the fields of
`google.oauth2.credentials.Credentials` that youtube_uploader.py
inspects: `expired` and `refresh_token` (plus an opaque access token
so that distinct credentials are distinguishable). -/
structure Credentials where
  token : String
  refresh_token : Option String
  expired : Bool
deriving Repr, DecidableEq

/-- One snapshot stored in the `upload_status` dict of the source, or
the sentinel returned by `get_upload_status` when no entry exists.
Constructors mirror the three dict shapes written by the source
(`_resumable_upload`) plus the sentinel. -/
inductive Snapshot where
  | uploading (progress : Nat) (file : String)
  | errorSnap (progress : Nat) (file : String) (msg : String)
  | completedSnap (progress : Nat) (file : String) (videoId : Option String)
  | noUploads
deriving Repr, DecidableEq

/-- The `status` string field of a snapshot, as the source writes it. -/
def Snapshot.statusStr : Snapshot → String
  | .uploading _ _ => "uploading"
  | .errorSnap _ _ m => "error: " ++ m
  | .completedSnap _ _ _ => "completed"
  | .noUploads => "no_uploads"

/-- A snapshot is terminal when it is a completed or an error entry. -/
def Snapshot.isTerminal : Snapshot → Bool
  | .errorSnap _ _ _ => true
  | .completedSnap _ _ _ => true
  | _ => false

/-- The whole observable state of one `YouTubeUploader` instance plus
the durable stores it touches: `tokens` models the tokens/{user}.pickle
files, `states` the states/{user}.state files, `uploadStatus` the
in-memory `self.upload_status` dict, and `files` the temporary file
store (path to file size in bytes; `none` means no file at that path). -/
structure UploaderState where
  tokens : Nat → Option Credentials
  states : Nat → Option String
  uploadStatus : Nat → Option Snapshot
  files : String → Option Nat

/-- Source `is_authenticated`: true exactly when a token file exists. -/
def is_authenticated (st : UploaderState) (u : Nat) : Bool :=
  (st.tokens u).isSome

/-- Source `_load_credentials`, over the token-file map.  The refresh
oracle models `creds.refresh(Request())`: on success it yields the
refreshed credential, on failure the raised exception's message.  The
source refreshes only when the credential is expired AND carries a
refresh token; a raised refresh error propagates (`Except.error`). -/
def load_credentials (refresh : Credentials → Except String Credentials)
    (tokens : Nat → Option Credentials) (u : Nat) :
    Except String (Option Credentials × (Nat → Option Credentials)) :=
  match tokens u with
  | none => .ok (none, tokens)
  | some creds =>
    if creds.expired && creds.refresh_token.isSome then
      match refresh creds with
      | .ok c2 => .ok (some c2, fun v => if v = u then some c2 else tokens v)
      | .error e => .error e
    else .ok (some creds, tokens)

/-- Source `_save_state`: overwrite the pending-state file for a user. -/
def save_state (st : UploaderState) (u : Nat) (s : String) : UploaderState :=
  { st with states := fun v => if v = u then some s else st.states v }

/-- Source `_load_state`: read the pending-state file, if any. -/
def load_state (st : UploaderState) (u : Nat) : Option String :=
  st.states u

/-- Source `get_oauth_url`: the oracle `mkAuth` models
`flow.authorization_url(...)` returning an authorization URL together
with a fresh anti-forgery state token; the token is persisted via
`_save_state` and the URL returned. -/
def get_oauth_url (mkAuth : Nat → String × String) (st : UploaderState) (u : Nat) :
    String × UploaderState :=
  ((mkAuth u).1, save_state st u (mkAuth u).2)

/-- Source `handle_callback`: the `exchange` oracle models
`flow.fetch_token(authorization_response=...)` (raising on a rejected
exchange).  On success the credential is persisted via
`_save_credentials` and True is returned.  The source never calls
`_load_state`, so the pending-state component is neither read nor
written here. -/
def handle_callback (exchange : String → Except String Credentials)
    (st : UploaderState) (u : Nat) (authorization_response : String) :
    Except String (Bool × UploaderState) :=
  match exchange authorization_response with
  | .error e => .error e
  | .ok creds =>
      .ok (true, { st with tokens := fun v => if v = u then some creds else st.tokens v })

/-- Observable outcome of `handle_callback` with the pending-state
component erased: the error or the returned boolean together with the
token store, the status table and the file store. -/
def cbView : Except String (Bool × UploaderState) →
    Except String (Bool × (Nat → Option Credentials) × (Nat → Option Snapshot) × (String → Option Nat))
  | .error e => .error e
  | .ok (b, st) => .ok (b, st.tokens, st.uploadStatus, st.files)

/-- Source `get_upload_status`: `self.upload_status.get(user_id,
{'status': 'no_uploads'})`.  A Python `dict.get` neither mutates nor
inserts, so the state is returned unchanged alongside the snapshot. -/
def get_upload_status (st : UploaderState) (u : Nat) : Snapshot × UploaderState :=
  ((st.uploadStatus u).getD Snapshot.noUploads, st)

/-- Outcome of one `request.next_chunk()` call, as the environment
(network plus upload server) resolves it: an exception with a message,
a successfully transferred chunk, or a response carrying neither a
progress status nor a final response (the source's `if status:` branch
is skipped and the loop continues). -/
inductive StepResult where
  | failure (msg : String)
  | success
  | silent
deriving Repr, DecidableEq

/-- Number of failure outcomes in a chunk trace. -/
def countFailures : List StepResult → Nat
  | [] => 0
  | .failure _ :: r => countFailures r + 1
  | _ :: r => countFailures r

/-- How the chunk loop of `_resumable_upload` ends: with a final
response (completed), by the retry-exhaustion break (errored), or not
at all within the given trace (hung: the source loop would still be
running, since `while response is None` only exits on a response or on
the break). -/
inductive LoopResult where
  | completed (vid : Option String)
  | errored (msg : String)
  | hung
deriving Repr, DecidableEq

/-- True exactly for the errored loop result. -/
def LoopResult.isErrored : LoopResult → Bool
  | .errored _ => true
  | _ => false

/-- Source `os.path.basename`: the part of the path after the last
slash. -/
def basename (p : String) : String :=
  ((p.splitOn "/").getLast?).getD p

/-- The `while response is None` loop of `_resumable_upload`, returning
the list of status-dict writes it performs (in order, the terminal
write included) and how it ended.  `sent` models the resumable
progress in bytes kept by the media upload (`status.progress()` is
sent divided by size, and the source writes
`int(status.progress() * 100)`, here `sent * 100 / size`); a successful
chunk advances it by `chunksize`, and the final chunk (the one that
reaches `size`) yields the response with no progress status, so the
only write it causes is the completed entry after the loop.  A failure
outcome models the `except` arm: with `retry > 3` the error entry is
written and the loop breaks, otherwise `retry` is incremented and the
chunk retried.  The retry counter is threaded unchanged through
successful chunks, exactly as in the source. -/
def resumableLoop (size chunksize : Nat) (base : String) (vid : Option String) :
    List StepResult → Nat → Nat → List Snapshot × LoopResult
  | [], _, _ => ([], .hung)
  | .silent :: rest, sent, retry => resumableLoop size chunksize base vid rest sent retry
  | .failure msg :: rest, sent, retry =>
      if 3 < retry then ([.errorSnap 0 base msg], .errored msg)
      else resumableLoop size chunksize base vid rest sent (retry + 1)
  | .success :: rest, sent, retry =>
      if size ≤ sent + chunksize then ([.completedSnap 100 base vid], .completed vid)
      else
        (.uploading ((sent + chunksize) * 100 / size) base ::
            (resumableLoop size chunksize base vid rest (sent + chunksize) retry).1,
         (resumableLoop size chunksize base vid rest (sent + chunksize) retry).2)

/-- Apply a list of status writes for one user to the status table,
each write overwriting the entry (`self.upload_status[user_id] = ...`). -/
def applyWrites (u : Nat) (ws : List Snapshot) (m : Nat → Option Snapshot) :
    Nat → Option Snapshot :=
  ws.foldl (fun acc s => fun v => if v = u then some s else acc v) m

/-- The background job handed to the worker thread by `upload_video`:
the user, the source file path, its size, and the chunk size (the
source always passes 1024*1024). -/
structure UploadJob where
  user : Nat
  path : String
  size : Nat
  chunksize : Nat
deriving Repr, DecidableEq

/-- Environment of one background upload run: the trace of
`next_chunk` outcomes, the `id` field of the final response
(`response.get('id')`), and whether `os.remove` succeeds. -/
structure ChunkEnv where
  steps : List StepResult
  videoId : Option String
  removeOk : Bool

/-- Source `_resumable_upload` as a state transformer: run the chunk
loop, apply its status writes, and on loop exit (completed or errored)
attempt `os.remove(file_path)`, swallowing any failure (`except:
pass`).  When the trace leaves the loop still running (hung), no
deletion is attempted, as in the source. -/
def resumable_upload (st : UploaderState) (job : UploadJob) (env : ChunkEnv) :
    UploaderState :=
  let res := resumableLoop job.size job.chunksize (basename job.path) env.videoId env.steps 0 0
  let st1 := { st with uploadStatus := applyWrites job.user res.1 st.uploadStatus }
  match res.2 with
  | .hung => st1
  | _ =>
      if env.removeOk then
        { st1 with files := fun p => if p = job.path then none else st1.files p }
      else st1

/-- The exceptions `upload_video` can raise synchronously: the generic
`Exception('User not authenticated')`, an exception propagating out of
`creds.refresh` inside `_load_credentials`, and the `FileNotFoundError`
raised by `MediaFileUpload(file_path, ...)` opening a missing file. -/
inductive UploadVideoError where
  | notAuthenticated
  | refreshError (msg : String)
  | fileNotFound
deriving Repr, DecidableEq

/-- Result of the synchronous part of `upload_video`: either a raised
exception or the returned acknowledgement string together with the
background job handed to the spawned thread. -/
inductive UploadOutcome where
  | raised (e : UploadVideoError)
  | ok (msg : String) (job : UploadJob)
deriving Repr, DecidableEq

/-- Source `upload_video` (synchronous part, up to and including
spawning the worker thread and returning).  In source order: the
`is_authenticated` gate, `_load_credentials` (which may persist a
refreshed token or raise), then `MediaFileUpload` opening the source
file (raising FileNotFoundError when absent — the file-size lookup
models that open), then the thread spawn and the immediate return of
the string `Upload started for <title>`.  The source performs no
validation of `title` and writes nothing to `upload_status` here.
Mutations performed before a raise are kept in the returned state,
as Python exceptions do not roll anything back. -/
def upload_video (refresh : Credentials → Except String Credentials)
    (st : UploaderState) (u : Nat) (file_path title _description : String)
    (_tags : List String) (_category _privacy : String) :
    UploadOutcome × UploaderState :=
  if is_authenticated st u then
    match load_credentials refresh st.tokens u with
    | .error e => (.raised (.refreshError e), st)
    | .ok (_creds, tokens2) =>
        let st2 := { st with tokens := tokens2 }
        match st.files file_path with
        | none => (.raised .fileNotFound, st2)
        | some size =>
            (.ok ("Upload started for " ++ title)
               { user := u, path := file_path, size := size, chunksize := 1048576 },
             st2)
  else (.raised .notAuthenticated, st)

/-- The progress values of the non-terminal (uploading) writes of a
write list, in order. -/
def uploadingProgress : List Snapshot → List Nat
  | [] => []
  | .uploading p _ :: rest => p :: uploadingProgress rest
  | .errorSnap _ _ _ :: rest => uploadingProgress rest
  | .completedSnap _ _ _ :: rest => uploadingProgress rest
  | .noUploads :: rest => uploadingProgress rest

/-! ### Lemmas about the chunk loop -/

/-- Every uploading write emitted by the loop has progress at least the
progress corresponding to the bytes already sent on entry. -/
theorem uploadingProgress_lb (size chunksize : Nat) (base : String) (vid : Option String) :
    ∀ (steps : List StepResult) (sent retry : Nat),
      ∀ q ∈ uploadingProgress (resumableLoop size chunksize base vid steps sent retry).1,
        sent * 100 / size ≤ q := by
  intro steps
  induction steps with
  | nil =>
      intro sent retry q hq
      simp [resumableLoop, uploadingProgress] at hq
  | cons s rest ih =>
      intro sent retry q hq
      cases s with
      | silent =>
          exact ih sent retry q (by simpa [resumableLoop] using hq)
      | failure msg =>
          by_cases h : 3 < retry
          · simp [resumableLoop, h, uploadingProgress] at hq
          · exact ih sent (retry + 1) q (by simpa [resumableLoop, h] using hq)
      | success =>
          by_cases h : size ≤ sent + chunksize
          · simp [resumableLoop, h, uploadingProgress] at hq
          · have hq2 : q ∈ ((sent + chunksize) * 100 / size) ::
                uploadingProgress
                  (resumableLoop size chunksize base vid rest (sent + chunksize) retry).1 := by
              simpa [resumableLoop, h, uploadingProgress] using hq
            have hmono : sent * 100 / size ≤ (sent + chunksize) * 100 / size :=
              Nat.div_le_div_right
                (Nat.mul_le_mul (Nat.le_add_right sent chunksize) (Nat.le_refl 100))
            rcases List.mem_cons.mp hq2 with h1 | h1
            · exact h1 ▸ hmono
            · exact le_trans hmono (ih (sent + chunksize) retry q h1)

/-- The uploading-progress values emitted by the loop are pairwise
non-decreasing in emission order. -/
theorem uploadingProgress_chain (size chunksize : Nat) (base : String) (vid : Option String) :
    ∀ (steps : List StepResult) (sent retry : Nat),
      List.Chain' (· ≤ ·)
        (uploadingProgress (resumableLoop size chunksize base vid steps sent retry).1) := by
  intro steps
  induction steps with
  | nil =>
      intro sent retry
      simp [resumableLoop, uploadingProgress]
  | cons s rest ih =>
      intro sent retry
      cases s with
      | silent => simpa [resumableLoop] using ih sent retry
      | failure msg =>
          by_cases h : 3 < retry
          · simp [resumableLoop, h, uploadingProgress]
          · simpa [resumableLoop, h] using ih sent (retry + 1)
      | success =>
          by_cases h : size ≤ sent + chunksize
          · simp [resumableLoop, h, uploadingProgress]
          · have hch := ih (sent + chunksize) retry
            have hlb := uploadingProgress_lb size chunksize base vid rest (sent + chunksize) retry
            have hrw : uploadingProgress
                (resumableLoop size chunksize base vid (.success :: rest) sent retry).1
                = ((sent + chunksize) * 100 / size) ::
                  uploadingProgress
                    (resumableLoop size chunksize base vid rest (sent + chunksize) retry).1 := by
              simp [resumableLoop, h, uploadingProgress]
            rw [hrw]
            refine List.chain'_cons'.mpr ⟨?_, hch⟩
            intro y hy
            exact hlb y (List.mem_of_mem_head? hy)

/-- The loop performs exactly one terminal write when it exits
(completed or errored) and none while it is still running (hung). -/
theorem terminal_write_count (size chunksize : Nat) (base : String) (vid : Option String) :
    ∀ (steps : List StepResult) (sent retry : Nat),
      ((resumableLoop size chunksize base vid steps sent retry).1.filter Snapshot.isTerminal).length
        = (if (resumableLoop size chunksize base vid steps sent retry).2 = LoopResult.hung
            then 0 else 1) := by
  intro steps
  induction steps with
  | nil =>
      intro sent retry
      simp [resumableLoop]
  | cons s rest ih =>
      intro sent retry
      cases s with
      | silent => simpa [resumableLoop] using ih sent retry
      | failure msg =>
          by_cases h : 3 < retry
          · simp [resumableLoop, h, Snapshot.isTerminal]
          · simpa [resumableLoop, h] using ih sent (retry + 1)
      | success =>
          by_cases h : size ≤ sent + chunksize
          · simp [resumableLoop, h, Snapshot.isTerminal]
          · simpa [resumableLoop, h, List.filter_cons, Snapshot.isTerminal]
              using ih (sent + chunksize) retry

/-- Any completed write the loop emits carries progress 100, the file
basename, and exactly the video id of the final response. -/
theorem completed_write_id (size chunksize : Nat) (base : String) (vid : Option String) :
    ∀ (steps : List StepResult) (sent retry : Nat) (p : Nat) (f : String) (v : Option String),
      Snapshot.completedSnap p f v ∈ (resumableLoop size chunksize base vid steps sent retry).1 →
      p = 100 ∧ f = base ∧ v = vid := by
  intro steps
  induction steps with
  | nil =>
      intro sent retry p f v hm
      simp [resumableLoop] at hm
  | cons s rest ih =>
      intro sent retry p f v hm
      cases s with
      | silent => exact ih sent retry p f v (by simpa [resumableLoop] using hm)
      | failure msg =>
          by_cases h : 3 < retry
          · simp [resumableLoop, h] at hm
          · exact ih sent (retry + 1) p f v (by simpa [resumableLoop, h] using hm)
      | success =>
          by_cases h : size ≤ sent + chunksize
          · simpa [resumableLoop, h] using hm
          · have hm2 : Snapshot.completedSnap p f v
                ∈ (resumableLoop size chunksize base vid rest (sent + chunksize) retry).1 := by
              simpa [resumableLoop, h] using hm
            exact ih (sent + chunksize) retry p f v hm2

/-- A bounded retry counter never errors while the total number of
failure outcomes, added to the retry value already accumulated, stays
within the budget — regardless of how the failures are spread over
chunks. -/
theorem retry_counter_cumulative_aux (size chunksize : Nat) (base : String) (vid : Option String) :
    ∀ (steps : List StepResult) (sent retry : Nat),
      retry + countFailures steps ≤ 4 →
      ((resumableLoop size chunksize base vid steps sent retry).2).isErrored = false := by
  intro steps
  induction steps with
  | nil =>
      intro sent retry _
      rfl
  | cons s rest ih =>
      intro sent retry hle
      cases s with
      | silent =>
          simpa [resumableLoop] using ih sent retry (by simpa [countFailures] using hle)
      | failure msg =>
          have hcf : retry + (countFailures rest + 1) ≤ 4 := by
            simpa [countFailures] using hle
          have hr : ¬ 3 < retry := by omega
          have hrec := ih sent (retry + 1) (by omega)
          simpa [resumableLoop, hr] using hrec
      | success =>
          by_cases h : size ≤ sent + chunksize
          · simp [resumableLoop, h, LoopResult.isErrored]
          · simpa [resumableLoop, h]
              using ih (sent + chunksize) retry (by simpa [countFailures] using hle)

/-! ### Claim theorems for the chunk loop (C4, C5, C9) -/

/-- C4 counterexample: four consecutive chunk failures do NOT put the
job into the error terminal state — with the retry guard `retry > 3`
checked before the increment, four failures are all retried and a
following successful chunk completes the job normally. -/
theorem four_failures_do_not_error :
    (resumableLoop 1 1048576 "a.mp4" (some "v")
        [.failure "e", .failure "e", .failure "e", .failure "e", .success] 0 0).2
      = LoopResult.completed (some "v")
    ∧ ((resumableLoop 1 1048576 "a.mp4" (some "v")
        [.failure "e", .failure "e", .failure "e", .failure "e", .success] 0 0).2).isErrored
      = false := by
  constructor <;> rfl

/-- C4 amended: each transient chunk failure increments the single
retry counter and the chunk is retried; the job is abandoned with the
terminal status writing `error: <message>` only once the counter
exceeds 3, which happens on the FIFTH consecutive failure — four
consecutive failures are still tolerated, and a successful chunk after
them lets the job complete. -/
theorem retry_budget_errors_on_fifth_failure
    (size chunksize : Nat) (base : String) (vid : Option String)
    (m1 m2 m3 m4 m5 : String) (rest : List StepResult) (sent : Nat) :
    resumableLoop size chunksize base vid
        (.failure m1 :: .failure m2 :: .failure m3 :: .failure m4 :: .failure m5 :: rest) sent 0
      = ([Snapshot.errorSnap 0 base m5], LoopResult.errored m5)
    ∧ (size ≤ sent + chunksize →
        resumableLoop size chunksize base vid
            (.failure m1 :: .failure m2 :: .failure m3 :: .failure m4 :: .success :: rest) sent 0
          = ([Snapshot.completedSnap 100 base vid], LoopResult.completed vid)) := by
  constructor
  · rfl
  · intro h
    simp [resumableLoop, h]

/-- Witness for the amended C4 theorem at a concrete input. -/
theorem retry_budget_errors_on_fifth_failure_witness :
    resumableLoop 5 1048576 "a.mp4" (some "v")
        [.failure "a", .failure "b", .failure "c", .failure "d", .failure "e"] 0 0
      = ([Snapshot.errorSnap 0 "a.mp4" "e"], LoopResult.errored "e")
    ∧ resumableLoop 5 1048576 "a.mp4" (some "v")
        [.failure "a", .failure "b", .failure "c", .failure "d", .success] 0 0
      = ([Snapshot.completedSnap 100 "a.mp4" (some "v")], LoopResult.completed (some "v")) :=
  ⟨(retry_budget_errors_on_fifth_failure 5 1048576 "a.mp4" (some "v")
      "a" "b" "c" "d" "e" [] 0).1,
   (retry_budget_errors_on_fifth_failure 5 1048576 "a.mp4" (some "v")
      "a" "b" "c" "d" "e" [] 0).2 (by decide)⟩

/-- C5: within one job the progress values of the uploading writes are
monotonically non-decreasing until a terminal write; the loop performs
at most one terminal write, which is either the completed entry
(carrying exactly the non-empty video id of the final response) or an
error entry — never both for the same run. -/
theorem progress_monotone_and_terminal_exclusive
    (size chunksize : Nat) (base : String) (s : String) (steps : List StepResult)
    (hs : s ≠ "") :
    List.Chain' (· ≤ ·)
      (uploadingProgress (resumableLoop size chunksize base (some s) steps 0 0).1)
    ∧ ((resumableLoop size chunksize base (some s) steps 0 0).1.filter
        Snapshot.isTerminal).length ≤ 1
    ∧ (∀ p f v,
        Snapshot.completedSnap p f v ∈ (resumableLoop size chunksize base (some s) steps 0 0).1 →
        v = some s ∧ s ≠ "" ∧ p = 100) := by
  refine ⟨uploadingProgress_chain size chunksize base (some s) steps 0 0, ?_, ?_⟩
  · rw [terminal_write_count]
    split <;> simp
  · intro p f v hm
    have h := completed_write_id size chunksize base (some s) steps 0 0 p f v hm
    exact ⟨h.2.2, hs, h.1⟩

/-- Witness for C5 at a concrete two-chunk run. -/
theorem progress_monotone_and_terminal_exclusive_witness :
    List.Chain' (· ≤ ·)
      (uploadingProgress (resumableLoop 2 1 "a.mp4" (some "vid123") [.success, .success] 0 0).1)
    ∧ ((resumableLoop 2 1 "a.mp4" (some "vid123") [.success, .success] 0 0).1.filter
        Snapshot.isTerminal).length ≤ 1
    ∧ (∀ p f v,
        Snapshot.completedSnap p f v
          ∈ (resumableLoop 2 1 "a.mp4" (some "vid123") [.success, .success] 0 0).1 →
        v = some "vid123" ∧ "vid123" ≠ "" ∧ p = 100) :=
  progress_monotone_and_terminal_exclusive 2 1 "a.mp4" "vid123" [.success, .success] (by decide)

/-- C9: the retry counter is cumulative across the whole job.  First:
whenever the accumulated retry value plus the total number of transient
failures in the trace stays within the budget (at most 4), the job
never reaches the error state, no matter how the failures are spread
over distinct chunks.  Second: five failures spread over five distinct
chunks (never two in a row) still exhaust the budget, which a per-chunk
counter would not — the counter is never reset by the interleaved
successful chunks.  Third: a chunk response carrying no progress
fraction produces no Status Tracker write and changes nothing.
Fourth: a successfully transferred chunk passes the retry counter
through unchanged. -/
theorem retry_budget_cumulative :
    (∀ (size chunksize : Nat) (base : String) (vid : Option String)
        (steps : List StepResult) (sent retry : Nat),
        retry + countFailures steps ≤ 4 →
        ((resumableLoop size chunksize base vid steps sent retry).2).isErrored = false)
    ∧ (resumableLoop 6 1 "a.mp4" (some "v")
        [.failure "e1", .success, .failure "e2", .success, .failure "e3", .success,
         .failure "e4", .success, .failure "e5"] 0 0).2 = LoopResult.errored "e5"
    ∧ (∀ (size chunksize : Nat) (base : String) (vid : Option String)
        (rest : List StepResult) (sent retry : Nat),
        resumableLoop size chunksize base vid (.silent :: rest) sent retry
          = resumableLoop size chunksize base vid rest sent retry)
    ∧ (∀ (size chunksize : Nat) (base : String) (vid : Option String)
        (rest : List StepResult) (sent retry : Nat),
        ¬ size ≤ sent + chunksize →
        (resumableLoop size chunksize base vid (.success :: rest) sent retry).2
          = (resumableLoop size chunksize base vid rest (sent + chunksize) retry).2) := by
  refine ⟨retry_counter_cumulative_aux, by decide, fun _ _ _ _ _ _ _ => rfl, ?_⟩
  intro size chunksize base vid rest sent retry h
  simp [resumableLoop, h]

/-- Witness for C9 at concrete inputs, discharging the hypotheses of
the universally quantified conjuncts. -/
theorem retry_budget_cumulative_witness :
    ((resumableLoop 6 1 "a.mp4" (some "v") [.failure "x", .success] 0 0).2).isErrored = false
    ∧ (resumableLoop 6 1 "a.mp4" (some "v") [.success, .failure "x"] 0 0).2
        = (resumableLoop 6 1 "a.mp4" (some "v") [.failure "x"] (0 + 1) 0).2 :=
  ⟨retry_budget_cumulative.1 6 1 "a.mp4" (some "v") [.failure "x", .success] 0 0 (by decide),
   retry_budget_cumulative.2.2.2 6 1 "a.mp4" (some "v") [.failure "x"] 0 0 (by decide)⟩

/-! ### Claim theorems for upload_video and the credential store (C1, C2, C3) -/

/-- A state in which user 7 holds a fresh (non-expired) credential and
the file a.mp4 of 5 bytes sits in temporary storage; no status entry
exists for anyone. -/
def authSt : UploaderState where
  tokens := fun v => if v = 7 then some ⟨"tok", some "r", false⟩ else none
  states := fun _ => none
  uploadStatus := fun _ => none
  files := fun p => if p = "a.mp4" then some 5 else none

/-- A refresh oracle that always fails; runs in which it is never
consulted are insensitive to it. -/
def rNone : Credentials → Except String Credentials :=
  fun _ => .error "refresh rejected"

/-- C1 counterexample: an accepted `upload_video` call (credential
present, title supplied, file readable) returns without recording any
Status Tracker entry for the user — the initial
`status=uploading, progress=0` entry the claim requires is never
written synchronously. -/
theorem no_initial_status_entry :
    (upload_video rNone authSt 7 "a.mp4" "My Title" "" [] "22" "private").1
      = UploadOutcome.ok "Upload started for My Title" ⟨7, "a.mp4", 5, 1048576⟩
    ∧ (upload_video rNone authSt 7 "a.mp4" "My Title" "" [] "22" "private").2.uploadStatus 7
      = none := by
  constructor <;> rfl

/-- C1 amended: the synchronous part of `upload_video` never touches
the Status Tracker (for any input, accepted or rejected); every status
entry of the job is written by the asynchronous chunk loop, which
overwrites the table entry of the job's user with its writes in order. -/
theorem status_written_only_by_loop :
    (∀ (refresh : Credentials → Except String Credentials) (st : UploaderState)
        (u : Nat) (path title d : String) (tags : List String) (cat priv : String),
        ((upload_video refresh st u path title d tags cat priv).2).uploadStatus
          = st.uploadStatus)
    ∧ (∀ (st : UploaderState) (job : UploadJob) (env : ChunkEnv),
        (resumable_upload st job env).uploadStatus
          = applyWrites job.user
              (resumableLoop job.size job.chunksize (basename job.path)
                env.videoId env.steps 0 0).1
              st.uploadStatus) := by
  constructor
  · intro refresh st u path title d tags cat priv
    unfold upload_video
    by_cases h : is_authenticated st u
    · simp only [h, if_true]
      cases hl : load_credentials refresh st.tokens u with
      | error e => simp
      | ok pr =>
          cases hp : st.files path <;> simp
    · simp [h]
  · intro st job env
    unfold resumable_upload
    cases hres : (resumableLoop job.size job.chunksize (basename job.path)
        env.videoId env.steps 0 0).2 <;>
      simp [hres] <;> split <;> rfl

/-- C2 counterexample: for a persisted credential that is expired and
has no refresh token, `_load_credentials` returns the expired
credential itself with the store unchanged — not absent as the claim
requires. -/
def cExp : Credentials := ⟨"tok", none, true⟩

/-- Token store holding only the expired, refresh-token-less credential
for user 0. -/
def tExp : Nat → Option Credentials := fun v => if v = 0 then some cExp else none

theorem expired_credential_returned :
    load_credentials rNone tExp 0 = .ok (some cExp, tExp)
    ∧ cExp.expired = true
    ∧ cExp.refresh_token = none := by
  refine ⟨rfl, rfl, rfl⟩

/-- C2 amended: `_load_credentials` returns absent when no credential
is persisted; when the persisted credential is expired AND carries a
refresh token it refreshes, persists and returns the refreshed
credential; when that refresh fails the exception propagates to the
caller (it does not return absent); and when the credential is not
expired, or is expired but has no refresh token, the stored credential
is returned as-is (so an expired credential without refresh token is
returned, not treated as absent). -/
theorem getValidCredential_contract
    (refresh : Credentials → Except String Credentials)
    (tokens : Nat → Option Credentials) (u : Nat) :
    (tokens u = none → load_credentials refresh tokens u = .ok (none, tokens))
    ∧ (∀ c c2, tokens u = some c → c.expired = true → c.refresh_token.isSome = true →
        refresh c = .ok c2 →
        load_credentials refresh tokens u
          = .ok (some c2, fun v => if v = u then some c2 else tokens v))
    ∧ (∀ c e, tokens u = some c → c.expired = true → c.refresh_token.isSome = true →
        refresh c = .error e → load_credentials refresh tokens u = .error e)
    ∧ (∀ c, tokens u = some c → (c.expired && c.refresh_token.isSome) = false →
        load_credentials refresh tokens u = .ok (some c, tokens)) := by
  refine ⟨?_, ?_, ?_, ?_⟩
  · intro h
    simp [load_credentials, h]
  · intro c c2 hc he hr hok
    simp [load_credentials, hc, he, hr, hok]
  · intro c e hc he hr herr
    simp [load_credentials, hc, he, hr, herr]
  · intro c hc hne
    simp [load_credentials, hc, hne]

/-- Witness for the amended C2 theorem: all four branches exercised at
concrete stores and oracles. -/
theorem getValidCredential_contract_witness :
    load_credentials rNone tExp 3 = .ok (none, tExp)
    ∧ load_credentials (fun c => .ok ⟨"new", c.refresh_token, false⟩)
        (fun v => if v = 1 then some ⟨"old", some "r", true⟩ else none) 1
        = .ok (some ⟨"new", some "r", false⟩,
            fun v => if v = 1 then some ⟨"new", some "r", false⟩
              else if v = 1 then some ⟨"old", some "r", true⟩ else none)
    ∧ load_credentials rNone
        (fun v => if v = 1 then some ⟨"old", some "r", true⟩ else none) 1
        = .error "refresh rejected"
    ∧ load_credentials rNone tExp 0 = .ok (some cExp, tExp) :=
  ⟨(getValidCredential_contract rNone tExp 3).1 rfl,
   (getValidCredential_contract (fun c => .ok ⟨"new", c.refresh_token, false⟩)
      (fun v => if v = 1 then some ⟨"old", some "r", true⟩ else none) 1).2.1
      ⟨"old", some "r", true⟩ ⟨"new", some "r", false⟩ rfl rfl rfl rfl,
   (getValidCredential_contract rNone
      (fun v => if v = 1 then some ⟨"old", some "r", true⟩ else none) 1).2.2.1
      ⟨"old", some "r", true⟩ "refresh rejected" rfl rfl rfl rfl,
   (getValidCredential_contract rNone tExp 0).2.2.2 cExp rfl rfl⟩

/-- C3 counterexample: with a credential present and the file readable,
`upload_video` called with an EMPTY title is accepted and starts the
upload — no ValidationError (nor any exception) is raised for the
missing title. -/
theorem empty_title_accepted :
    (upload_video rNone authSt 7 "a.mp4" "" "" [] "22" "private").1
      = UploadOutcome.ok "Upload started for " ⟨7, "a.mp4", 5, 1048576⟩ := by
  rfl

/-- C3 amended: `upload_video` raises its not-authenticated exception
when no token file exists (state untouched), and the file-not-found
error when the source file is missing (Status Tracker and file store
untouched; the token store may already hold a refreshed credential);
it performs NO title validation — with the other preconditions met an
empty title is accepted and the upload starts; and in every case the
synchronous call leaves the Status Tracker and the file store
unchanged. -/
theorem upload_video_rejections
    (refresh : Credentials → Except String Credentials) (st : UploaderState)
    (u : Nat) (path title d : String) (tags : List String) (cat priv : String) :
    (st.tokens u = none →
      upload_video refresh st u path title d tags cat priv
        = (.raised .notAuthenticated, st))
    ∧ (∀ creds tokens2,
        load_credentials refresh st.tokens u = .ok (creds, tokens2) →
        (st.tokens u).isSome = true → st.files path = none →
        upload_video refresh st u path title d tags cat priv
          = (.raised .fileNotFound, { st with tokens := tokens2 }))
    ∧ ((upload_video refresh st u path title d tags cat priv).2.uploadStatus = st.uploadStatus
        ∧ (upload_video refresh st u path title d tags cat priv).2.files = st.files)
    ∧ (∀ creds tokens2 size,
        load_credentials refresh st.tokens u = .ok (creds, tokens2) →
        (st.tokens u).isSome = true → st.files path = some size →
        (upload_video refresh st u path "" d tags cat priv).1
          = .ok "Upload started for " ⟨u, path, size, 1048576⟩) := by
  refine ⟨?_, ?_, ?_, ?_⟩
  · intro h
    simp [upload_video, is_authenticated, h]
  · intro creds tokens2 hl ha hp
    simp [upload_video, is_authenticated, ha, hl, hp]
  · unfold upload_video
    by_cases h : is_authenticated st u
    · simp only [h, if_true]
      cases hl : load_credentials refresh st.tokens u with
      | error e => simp
      | ok pr => cases hp : st.files path <;> simp
    · simp [h]
  · intro creds tokens2 size hl ha hp
    simp [upload_video, is_authenticated, ha, hl, hp]

/-- Witness for the amended C3 theorem: the three rejection/acceptance
branches at concrete inputs. -/
theorem upload_video_rejections_witness :
    upload_video rNone authSt 3 "a.mp4" "T" "" [] "22" "private"
      = (.raised .notAuthenticated, authSt)
    ∧ upload_video rNone authSt 7 "missing.mp4" "T" "" [] "22" "private"
      = (.raised .fileNotFound, { authSt with tokens := authSt.tokens })
    ∧ (upload_video rNone authSt 7 "a.mp4" "" "" [] "22" "private").1
      = .ok "Upload started for " ⟨7, "a.mp4", 5, 1048576⟩ :=
  ⟨(upload_video_rejections rNone authSt 3 "a.mp4" "T" "" [] "22" "private").1 rfl,
   (upload_video_rejections rNone authSt 7 "missing.mp4" "T" "" [] "22" "private").2.1
      (some ⟨"tok", some "r", false⟩) authSt.tokens rfl rfl rfl,
   (upload_video_rejections rNone authSt 7 "a.mp4" "T" "" [] "22" "private").2.2.2
      (some ⟨"tok", some "r", false⟩) authSt.tokens 5 rfl rfl rfl⟩

/-! ### Claim theorems for cleanup, callback, status query, auth gate (C6, C7, C8, C10) -/

/-- C6 counterexample: a job that reaches the completed terminal state
while the deletion of the source file fails (the swallowed `except:
pass` arm) leaves the file present at its original path — the claim's
"after a terminal state the source file no longer exists" is violated. -/
theorem deletion_failure_leaves_file :
    (resumableLoop 5 1048576 "a.mp4" (some "v") [.success] 0 0).2
      = LoopResult.completed (some "v")
    ∧ (resumable_upload authSt ⟨7, "a.mp4", 5, 1048576⟩
        ⟨[.success], some "v", false⟩).files "a.mp4" = some 5 := by
  constructor <;> rfl

/-- C6 amended: whenever the chunk loop exits (completed or errored)
deletion of the source file is attempted, and a deletion failure is
swallowed: the status table after the run is identical whether the
deletion succeeds or fails, and no error is surfaced.  The source file
no longer exists at its original path only PROVIDED the deletion
succeeds; while the loop is still running no deletion is attempted and
the file store is untouched. -/
theorem cleanup_best_effort (st : UploaderState) (job : UploadJob)
    (steps : List StepResult) (vid : Option String) :
    ((resumable_upload st job ⟨steps, vid, true⟩).uploadStatus
        = (resumable_upload st job ⟨steps, vid, false⟩).uploadStatus)
    ∧ ((resumableLoop job.size job.chunksize (basename job.path) vid steps 0 0).2
          ≠ LoopResult.hung →
        (resumable_upload st job ⟨steps, vid, true⟩).files job.path = none)
    ∧ ((resumableLoop job.size job.chunksize (basename job.path) vid steps 0 0).2
          = LoopResult.hung →
        ∀ b, (resumable_upload st job ⟨steps, vid, b⟩).files = st.files) := by
  refine ⟨?_, ?_, ?_⟩
  · unfold resumable_upload
    cases hres : (resumableLoop job.size job.chunksize (basename job.path) vid steps 0 0).2 <;>
      simp [hres]
  · intro h
    unfold resumable_upload
    cases hres : (resumableLoop job.size job.chunksize (basename job.path) vid steps 0 0).2 with
    | hung => exact absurd hres h
    | completed v => simp [hres]
    | errored m => simp [hres]
  · intro h b
    unfold resumable_upload
    simp [h]

/-- Witness for the amended C6 theorem at concrete runs: deletion
success removes the file, and an exhausted trace (still-running loop)
leaves the file store untouched. -/
theorem cleanup_best_effort_witness :
    ((resumable_upload authSt ⟨7, "a.mp4", 5, 1048576⟩
        ⟨[.success], some "v", true⟩).uploadStatus
      = (resumable_upload authSt ⟨7, "a.mp4", 5, 1048576⟩
          ⟨[.success], some "v", false⟩).uploadStatus)
    ∧ (resumable_upload authSt ⟨7, "a.mp4", 5, 1048576⟩
        ⟨[.success], some "v", true⟩).files "a.mp4" = none
    ∧ (resumable_upload authSt ⟨7, "a.mp4", 5, 1048576⟩
        ⟨[], some "v", true⟩).files = authSt.files :=
  ⟨(cleanup_best_effort authSt ⟨7, "a.mp4", 5, 1048576⟩ [.success] (some "v")).1,
   (cleanup_best_effort authSt ⟨7, "a.mp4", 5, 1048576⟩ [.success] (some "v")).2.1
      (by decide),
   (cleanup_best_effort authSt ⟨7, "a.mp4", 5, 1048576⟩ [] (some "v")).2.2 rfl true⟩

/-- C7: `handle_callback` never consults the stored anti-forgery state
token.  For the same authorization response and exchange outcome, two
uploader states that agree on everything except the pending-state store
produce the same observable outcome (same error or same returned
boolean, token store, status table and file store), and the call leaves
its pending-state store exactly as it found it. -/
theorem callback_ignores_pending_state
    (exchange : String → Except String Credentials)
    (st1 st2 : UploaderState) (u : Nat) (resp : String)
    (ht : st1.tokens = st2.tokens) (hu : st1.uploadStatus = st2.uploadStatus)
    (hf : st1.files = st2.files) :
    cbView (handle_callback exchange st1 u resp)
      = cbView (handle_callback exchange st2 u resp)
    ∧ (∀ b r, handle_callback exchange st1 u resp = .ok (b, r) → r.states = st1.states) := by
  constructor
  · cases hx : exchange resp <;> simp [handle_callback, cbView, hx, ht, hu, hf]
  · intro b r hr
    cases hx : exchange resp with
    | error e => simp [handle_callback, hx] at hr
    | ok creds =>
        simp [handle_callback, hx] at hr
        rw [← hr.2]

/-- Witness for C7: two concrete states, one holding a pending state
token for the user and one holding none, yield the same callback
outcome. -/
theorem callback_ignores_pending_state_witness :
    cbView (handle_callback (fun r => if r = "resp" then .ok ⟨"t", some "r", false⟩
        else .error "bad")
        { authSt with states := fun v => if v = 7 then some "statetok" else none } 7 "resp")
      = cbView (handle_callback (fun r => if r = "resp" then .ok ⟨"t", some "r", false⟩
          else .error "bad") authSt 7 "resp")
    ∧ (∀ b r, handle_callback (fun r => if r = "resp" then .ok ⟨"t", some "r", false⟩
        else .error "bad")
        { authSt with states := fun v => if v = 7 then some "statetok" else none } 7 "resp"
        = .ok (b, r) →
        r.states = ({ authSt with states := fun v => if v = 7 then some "statetok" else none
          } : UploaderState).states) :=
  callback_ignores_pending_state
    (fun r => if r = "resp" then .ok ⟨"t", some "r", false⟩ else .error "bad")
    { authSt with states := fun v => if v = 7 then some "statetok" else none }
    authSt 7 "resp" rfl rfl rfl

/-- C8: `get_upload_status` returns the stored snapshot for the user
when one exists and the sentinel no-uploads snapshot otherwise, leaves
the state exactly as it found it (a `dict.get` with default neither
mutates nor inserts), and a sequence of writes ending in `s` leaves
`s` as the entry the query sees (last-writer-wins). -/
theorem get_status_contract :
    (∀ (st : UploaderState) (u : Nat), (get_upload_status st u).2 = st)
    ∧ (∀ (st : UploaderState) (u : Nat),
        st.uploadStatus u = none → (get_upload_status st u).1 = Snapshot.noUploads)
    ∧ (∀ (st : UploaderState) (u : Nat) (s : Snapshot),
        st.uploadStatus u = some s → (get_upload_status st u).1 = s)
    ∧ (∀ (u : Nat) (m : Nat → Option Snapshot) (ws : List Snapshot) (s : Snapshot),
        applyWrites u (ws ++ [s]) m u = some s) := by
  refine ⟨fun st u => rfl, ?_, ?_, ?_⟩
  · intro st u h
    simp [get_upload_status, h]
  · intro st u s h
    simp [get_upload_status, h]
  · intro u m ws s
    unfold applyWrites
    rw [List.foldl_append]
    simp

/-- Witness for C8: the sentinel for a user with no entry, the stored
snapshot for a user with one, and last-writer-wins at a concrete write
sequence. -/
theorem get_status_contract_witness :
    (get_upload_status authSt 99).1 = Snapshot.noUploads
    ∧ (get_upload_status
        { authSt with uploadStatus := fun v =>
            if v = 7 then some (Snapshot.uploading 50 "a.mp4") else none } 7).1
      = Snapshot.uploading 50 "a.mp4"
    ∧ applyWrites 7 ([Snapshot.uploading 10 "a.mp4"] ++ [Snapshot.uploading 60 "a.mp4"])
        (fun _ => none) 7 = some (Snapshot.uploading 60 "a.mp4") :=
  ⟨get_status_contract.2.1 authSt 99 rfl,
   get_status_contract.2.2.1
      { authSt with uploadStatus := fun v =>
          if v = 7 then some (Snapshot.uploading 50 "a.mp4") else none } 7
      (Snapshot.uploading 50 "a.mp4") rfl,
   get_status_contract.2.2.2 7 (fun _ => none)
      [Snapshot.uploading 10 "a.mp4"] (Snapshot.uploading 60 "a.mp4")⟩

/-- C10: `is_authenticated` is a pure existence check on the token
file, true for any stored credential whatever its expiry, false when
none is stored; consequently `upload_video`'s gate passes for a user
whose only credential is expired with no refresh token, and (for any
refresh oracle, since none is consulted) the upload is accepted and
started with that stale credential. -/
theorem auth_gate_existence_only
    (st : UploaderState) (u : Nat) (refresh : Credentials → Except String Credentials)
    (path title d : String) (tags : List String) (cat priv : String) :
    (∀ c, st.tokens u = some c → is_authenticated st u = true)
    ∧ (st.tokens u = none → is_authenticated st u = false)
    ∧ (∀ tok size, st.tokens u = some ⟨tok, none, true⟩ → st.files path = some size →
        (upload_video refresh st u path title d tags cat priv).1
          = UploadOutcome.ok ("Upload started for " ++ title) ⟨u, path, size, 1048576⟩) := by
  refine ⟨?_, ?_, ?_⟩
  · intro c hc
    simp [is_authenticated, hc]
  · intro h
    simp [is_authenticated, h]
  · intro tok size hc hp
    simp [upload_video, is_authenticated, load_credentials, hc, hp]

/-- Witness for C10: a user holding only an expired credential with no
refresh token, checked authenticated and accepted for upload under an
always-failing refresh oracle. -/
theorem auth_gate_existence_only_witness :
    is_authenticated { authSt with tokens := fun v => if v = 7 then some cExp else none } 7
      = true
    ∧ (upload_video rNone
        { authSt with tokens := fun v => if v = 7 then some cExp else none }
        7 "a.mp4" "My Title" "" [] "22" "private").1
      = UploadOutcome.ok ("Upload started for " ++ "My Title") ⟨7, "a.mp4", 5, 1048576⟩ :=
  ⟨(auth_gate_existence_only
      { authSt with tokens := fun v => if v = 7 then some cExp else none }
      7 rNone "a.mp4" "My Title" "" [] "22" "private").1 cExp rfl,
   (auth_gate_existence_only
      { authSt with tokens := fun v => if v = 7 then some cExp else none }
      7 rNone "a.mp4" "My Title" "" [] "22" "private").2.2 "tok" 5 rfl rfl⟩

end YTUploader
